import Mathlib

/-!
# Verification of the APatch boot-time orchestrator (`apd`)

A shallow embedding of the mount-strategy selection, security relabeling and
event-watcher logic of `src/apd/src/event.rs` and `src/apd/src/restorecon.rs`.

External, fallible operations (file existence checks, file creation/removal,
mount syscalls, child processes) are abstracted as boolean outcomes supplied
by an environment record; each embedded function returns the effect trace it
would perform together with its `Except` result, and — where relevant — the
resulting abstract filesystem state (the pending-update marker, the temporary
image file).  Machine integers (`u64` byte sizes) are modelled as `Nat`; file
sizes never overflow in practice and the source performs no wrapping
arithmetic on them.
-/

namespace APatch

/-! ## Mount-mode configuration (`get_mount_mode`, event.rs lines 71-88) -/

/-- Modelled from the spec: `defs::MOUNT_MODE_MAGIC` (defs.rs is not part of
the provided sources; §6 of the design gives the persisted values
`magic|metamodule|disabled`). -/
def MOUNT_MODE_MAGIC : String := "magic"

/-- Modelled from the spec: `defs::MOUNT_MODE_METAMODULE`. -/
def MOUNT_MODE_METAMODULE : String := "metamodule"

/-- Modelled from the spec: `defs::MOUNT_MODE_DISABLED`. -/
def MOUNT_MODE_DISABLED : String := "disabled"

/-- Rust's `str::trim`: strip leading and trailing whitespace.  (An
executable model of the standard-library call used by `get_mount_mode`;
Lean's own `String.trim` is defined by well-founded recursion and does not
evaluate inside proofs.) -/
def rustTrim (s : String) : String :=
  String.mk
    (((s.data.dropWhile Char.isWhitespace).reverse.dropWhile
        Char.isWhitespace).reverse)

/-- Abstract state of the configuration files read by `get_mount_mode`. -/
structure ModeEnv where
  /-- `Path::new(defs::MOUNT_MODE_FILE).exists()` -/
  modeFileExists : Bool
  /-- `std::fs::read_to_string(mode_file)`: `some content` on `Ok`. -/
  readResult : Option String
  /-- `Path::new(defs::LITEMODE_FILE).exists()` -/
  litemodeExists : Bool

/-- The first phase of `get_mount_mode`: the validated mode string obtained
from the mode file (`none` when the file is absent, unreadable, or holds an
unrecognized value — the cases in which the source falls through past the
`match`). -/
def mode_from_file (env : ModeEnv) : Option String :=
  if env.modeFileExists then
    match env.readResult with
    | some content =>
      let mode := rustTrim content
      if mode = MOUNT_MODE_MAGIC ∨ mode = MOUNT_MODE_METAMODULE ∨
          mode = MOUNT_MODE_DISABLED then
        some mode
      else
        none
    | none => none
  else
    none

/-- `get_mount_mode` (event.rs 71-88): return the validated mode from the
mode file; otherwise the legacy lite-mode marker forces `disabled`;
otherwise default to `magic`. -/
def get_mount_mode (env : ModeEnv) : String :=
  match mode_from_file env with
  | some mode => mode
  | none =>
    if env.litemodeExists then MOUNT_MODE_DISABLED
    else MOUNT_MODE_MAGIC

/-! ## SecurityLabeler (`restorecon.rs`) -/

/-- `restorecon::SYSTEM_CON`. -/
def SYSTEM_CON : String := "u:object_r:system_file:s0"

/-- `restorecon::ADB_CON`. -/
def ADB_CON : String := "u:object_r:adb_data_file:s0"

/-- Modelled from the spec: `defs::DAEMON_PATH`, the fixed daemon artifact
(defs.rs is not part of the provided sources; only the path's identity
matters here, never its value). -/
def DAEMON_PATH : String := "/data/adb/apd"

/-- One entry yielded by the serial `jwalk::WalkDir` traversal of a tree:
its path, the security label it currently carries, and whether an
`lsetxattr` on it would succeed. -/
structure Entry where
  path : String
  con : String
  writeOk : Bool
deriving DecidableEq, Repr

/-- An observable extended-attribute operation. -/
inductive LabelAction where
  /-- `lgetxattr(path, "security.selinux")` -/
  | read (path : String)
  /-- `lsetxattr(path, "security.selinux", con)` -/
  | write (path : String) (con : String)
deriving DecidableEq, Repr

/-- Whether an action is a label write. -/
def LabelAction.isWrite : LabelAction → Bool
  | .write _ _ => true
  | .read _ => false

/-- Whether an action is a label read. -/
def LabelAction.isRead : LabelAction → Bool
  | .read _ => true
  | .write _ _ => false

/-- `restore_syscon` (restorecon.rs 56-63): for every walked entry,
`setsyscon(&path)?` — an unconditional `lsetxattr` of `SYSTEM_CON`, with
`?` propagating the first failure (the failing path stands in for the
`anyhow` error).  Returns the attempted actions and the result. -/
def restore_syscon : List Entry → List LabelAction × Except String Unit
  | [] => ([], Except.ok ())
  | e :: rest =>
    if e.writeOk then
      let (tr, r) := restore_syscon rest
      (LabelAction.write e.path SYSTEM_CON :: tr, r)
    else
      ([LabelAction.write e.path SYSTEM_CON], Except.error e.path)

/-- `restore_syscon_if_unlabeled` (restorecon.rs 65-76): reads each entry's
label first and writes only when it is unlabeled or empty.  Present in the
source but never invoked by `restorecon`. -/
def restore_syscon_if_unlabeled (UNLABEL_CON : String) :
    List Entry → List LabelAction × Except String Unit
  | [] => ([], Except.ok ())
  | e :: rest =>
    if e.con = UNLABEL_CON ∨ e.con = "" then
      if e.writeOk then
        let (tr, r) := restore_syscon_if_unlabeled UNLABEL_CON rest
        (LabelAction.read e.path :: LabelAction.write e.path SYSTEM_CON :: tr, r)
      else
        ([LabelAction.read e.path, LabelAction.write e.path SYSTEM_CON],
         Except.error e.path)
    else
      let (tr, r) := restore_syscon_if_unlabeled UNLABEL_CON rest
      (LabelAction.read e.path :: tr, r)

/-- Abstract inputs of `restorecon` (restorecon.rs 78-95). -/
structure ReconEnv where
  /-- Whether `lsetfilecon(defs::DAEMON_PATH, ADB_CON)` succeeds. -/
  daemonWriteOk : Bool
  /-- The walked entries of `defs::MODULE_DIR`. -/
  moduleEntries : List Entry
  /-- Whether `defs::SYSTEM_RW_DIR` exists after the creation attempt. -/
  rwDirExists : Bool
  /-- The walked entries of `defs::SYSTEM_RW_DIR`. -/
  rwEntries : List Entry
deriving Repr

/-- `restorecon` (restorecon.rs 78-95): label the daemon binary `ADB_CON`
(`?` propagates), then `restore_syscon(MODULE_DIR)?` (propagates), then —
if the RW root exists — `let _ = restore_syscon(SYSTEM_RW_DIR)` with the
result discarded. -/
def restorecon (env : ReconEnv) : List LabelAction × Except String Unit :=
  if env.daemonWriteOk then
    let (tr, r) := restore_syscon env.moduleEntries
    match r with
    | Except.error p => (LabelAction.write DAEMON_PATH ADB_CON :: tr, Except.error p)
    | Except.ok _ =>
      let rwTr := if env.rwDirExists then (restore_syscon env.rwEntries).1 else []
      (LabelAction.write DAEMON_PATH ADB_CON :: (tr ++ rwTr), Except.ok ())
  else
    ([LabelAction.write DAEMON_PATH ADB_CON], Except.error DAEMON_PATH)

/-! ## Overlay discovery and per-partition mounting
(`mount_partition`, `mount_systemlessly_overlayfs`, event.rs 101-218) -/

/-- A lower-layer directory path, represented structurally (the source
formats these as path strings; the representation is injective on the
paths generated in event.rs 179-197). -/
inductive Layer where
  /-- `{module}/system` — pushed onto `system_lowerdir` -/
  | moduleSystem (moduleName : String)
  /-- `{module}/system/{part}` — the `system/$PART` subtree -/
  | sysPart (moduleName : String) (part : String)
  /-- `{module}/{part}` — the top-level `$PART` subtree -/
  | topPart (moduleName : String) (part : String)
deriving DecidableEq, Repr

/-- One subdirectory entry of the module root, with the marker files and
subtrees the scan inspects. -/
structure Module where
  name : String
  /-- `module.is_dir()` -/
  isDir : Bool
  /-- `real_module_path.join(defs::DISABLE_FILE_NAME).exists()` -/
  disabled : Bool
  /-- `module.join(defs::SKIP_MOUNT_FILE_NAME).exists()` -/
  skipMount : Bool
  /-- `module.join("system").is_dir()` -/
  hasSystemDir : Bool
  /-- parts `p` for which `module.join(p).is_dir()` -/
  topPartDirs : List String
  /-- parts `p` for which `module.join("system").join(p).is_dir()` -/
  sysPartDirs : List String
deriving DecidableEq, Repr

/-- Abstract outcomes of the filesystem operations `mount_partition`
performs. -/
structure MountEnv where
  /-- `Path::new(defs::SYSTEM_RW_DIR).exists()` -/
  systemRwDirExists : Bool
  /-- Whether `mount::mount_overlay` succeeds for a given partition name. -/
  mountOverlayOk : String → Bool

/-- An observable filesystem effect of the mount construction. -/
inductive FsAction where
  /-- `std::fs::create_dir_all(part_rw_dir.join("workdir"))` -/
  | mkdirWork (part : String)
  /-- `std::fs::create_dir_all(part_rw_dir.join("upperdir"))` -/
  | mkdirUpper (part : String)
  /-- `restorecon::setsyscon(part_rw_dir)` -/
  | setconRw (part : String)
  /-- `restorecon::setsyscon(workdir)` -/
  | setconWork (part : String)
  /-- `restorecon::setsyscon(upperdir)` -/
  | setconUpper (part : String)
  /-- the `mount::mount_overlay` syscall for `/{part}`; `withUpper` records
  whether upperdir/workdir were passed (`SYSTEM_RW_DIR` existed) -/
  | mountOverlay (part : String) (lowerdir : List Layer) (withUpper : Bool)
deriving DecidableEq, Repr

/-- Whether an effect is a mount syscall. -/
def FsAction.isMount : FsAction → Bool
  | .mountOverlay _ _ _ => true
  | _ => false

/-- `mount_partition` (event.rs 101-129): skip (`Ok`) when `lowerdir` is
empty; otherwise, when the persistent RW root exists, create and relabel
the per-partition `workdir`/`upperdir` (failures discarded by `let _`),
then delegate to `mount::mount_overlay`. -/
def mount_partition (menv : MountEnv) (partition_name : String)
    (lowerdir : List Layer) : List FsAction × Except Unit Unit :=
  if lowerdir.isEmpty then
    ([], Except.ok ())
  else
    let setup : List FsAction :=
      if menv.systemRwDirExists then
        [FsAction.mkdirWork partition_name, FsAction.mkdirUpper partition_name,
         FsAction.setconRw partition_name, FsAction.setconWork partition_name,
         FsAction.setconUpper partition_name]
      else
        []
    (setup ++ [FsAction.mountOverlay partition_name lowerdir menv.systemRwDirExists],
     if menv.mountOverlayOk partition_name then Except.ok () else Except.error ())

/-- Abstract inputs of `mount_systemlessly_overlayfs`. -/
structure OverlayEnv where
  /-- Whether `fs::read_dir(module_dir)` succeeds. -/
  readDirOk : Bool
  /-- `defs::EXTENDED_PARTITIONS` (names only; the tuple's second component
  is unused by this code). -/
  partitions : List String
  /-- parts `p` for which `Path::new("/").join(p).is_dir()`. -/
  existingRoots : List String
  /-- The (flattened) entries of the module root, in iteration order. -/
  modules : List Module
  mountEnv : MountEnv

/-- The initial `partition_lowerdir` map (event.rs 149-155): one empty
entry per tracked partition whose root directory exists. -/
def initPartitionMap (env : OverlayEnv) : List (String × List Layer) :=
  env.partitions.filterMap fun p =>
    if p ∈ env.existingRoots then some (p, []) else none

/-- `partition_lowerdir.get_mut(part)` followed by pushes: append `ls` to
the entry for `p` when the key is present; no entry is created. -/
def pushLayers (map : List (String × List Layer)) (p : String)
    (ls : List Layer) : List (String × List Layer) :=
  map.map fun kv => if kv.1 = p then (kv.1, kv.2 ++ ls) else kv

/-- The layers module `m` pushes for partition `p` (event.rs 185-198):
`system/$PART` first, then `$PART`, each only when that subtree is a
directory. -/
def moduleContrib (m : Module) (p : String) : List Layer :=
  (if p ∈ m.sysPartDirs then [Layer.sysPart m.name p] else []) ++
    (if p ∈ m.topPartDirs then [Layer.topPart m.name p] else [])

/-- Whether the scan processes a module (event.rs 157-176): it must be a
directory and carry neither the disable nor the skip-mount marker. -/
def moduleActive (m : Module) : Bool :=
  m.isDir && !m.disabled && !m.skipMount

/-- The modules the scan does not `continue` past, in order. -/
def activeModules (env : OverlayEnv) : List Module :=
  env.modules.filter moduleActive

/-- The partition-specific collection loop (event.rs 157-200): for each
active module, for each tracked partition, push that module's
contributions onto the partition's lowerdir list when the partition is
tracked in the map. -/
def collectPartitionLowerdir (env : OverlayEnv) : List (String × List Layer) :=
  (activeModules env).foldl
    (fun map m => env.partitions.foldl (fun mp p => pushLayers mp p (moduleContrib m p)) map)
    (initPartitionMap env)

/-- Lookup of a partition's lowerdir list in the collected map (the read
counterpart of the `HashMap` access). -/
def lookupPart (p : String) : List (String × List Layer) → Option (List Layer)
  | [] => none
  | (k, v) :: rest => if k = p then some v else lookupPart p rest

/-- `system_lowerdir` (event.rs 143, 179-182): each active module's
`system` subtree, in scan order. -/
def systemLowerdir (env : OverlayEnv) : List Layer :=
  (activeModules env).filterMap fun m =>
    if m.hasSystemDir then some (Layer.moduleSystem m.name) else none

/-- The mount loop over the collected partitions (event.rs 209-214): mount
each in turn, returning the first error. -/
def mountAllPartitions (menv : MountEnv) :
    List (String × List Layer) → List FsAction × Except Unit Unit
  | [] => ([], Except.ok ())
  | (p, dirs) :: rest =>
    let (a, r) := mount_partition menv p dirs
    match r with
    | Except.error e => (a, Except.error e)
    | Except.ok _ =>
      let (as2, r2) := mountAllPartitions menv rest
      (a ++ as2, r2)

/-- `mount_systemlessly_overlayfs` (event.rs 133-218): on a failed
`read_dir` of the module root, warn and return `Ok` with no effects;
otherwise collect the layers, mount `system` first (its failure
propagates), then mount every other tracked partition. -/
def mount_systemlessly_overlayfs (env : OverlayEnv) :
    List FsAction × Except Unit Unit :=
  if !env.readDirOk then
    ([], Except.ok ())
  else
    let (a1, r1) := mount_partition env.mountEnv "system" (systemLowerdir env)
    match r1 with
    | Except.error e => (a1, Except.error e)
    | Except.ok _ =>
      let (as2, r2) := mountAllPartitions env.mountEnv (collectPartitionLowerdir env)
      (a1 ++ as2, r2)

/-! ## Module tree sizing (`calculate_total_size`, event.rs 36-50) -/

/-- A directory-tree node: a regular file with a byte length, a directory
with entries, or any other entry kind (symlink, device, ...). -/
inductive FNode where
  | file (size : Nat)
  | dir (entries : List FNode)
  | other
deriving Repr

/-- The inner loop of `calculate_total_size`: regular files add their
length, directories recurse, anything else is skipped. -/
def sizeEntries : List FNode → Nat
  | [] => 0
  | FNode.file n :: rest => n + sizeEntries rest
  | FNode.dir es :: rest => sizeEntries es + sizeEntries rest
  | FNode.other :: rest => sizeEntries rest

/-- `calculate_total_size` (event.rs 36-50): total over a directory's
entries; a non-directory path yields 0. -/
def calculate_total_size : FNode → Nat
  | FNode.dir entries => sizeEntries entries
  | _ => 0

/-! ## Image-backed tier (`mount_systemlessly_with_image`, event.rs 225-309) -/

/-- `ensure_file_exists` (event.rs 53-58): create the file when absent;
returns whether the file now exists. -/
def ensure_file_exists (pathExists createOk : Bool) : Except Unit Bool :=
  if !pathExists then
    if createOk then Except.ok true else Except.error ()
  else
    Except.ok true

/-- The pending-update-marker-relevant events of a run. -/
inductive Ev where
  /-- the marker file is created by `ensure_file_exists` (event.rs 237-239) -/
  | setMarker
  /-- the `module_update_flag.exists()` rebuild branch is entered (event.rs 241) -/
  | rebuildStart
  /-- the module-copy command returned (event.rs 301) -/
  | copyDone
  /-- `fs::remove_file(module_update_flag).ok()` removed the marker (event.rs 304) -/
  | clearMarker
  /-- the unconditional `let _ = fs::remove_file(module_update_flag)` at the
  end of `on_post_data_fs` (event.rs 521) -/
  | finalClear
deriving DecidableEq, Repr

/-- Abstract state threaded through the image pipeline. -/
structure ImgSt where
  /-- the pending-update marker file exists -/
  marker : Bool
  /-- the temporary image file `defs::MODULE_UPDATE_TMP_IMG` exists -/
  tmpImg : Bool
  /-- the image file's length after the last `create`/`set_len`, when known -/
  imgLen : Option Nat
deriving DecidableEq, Repr

/-- Abstract outcomes of the external operations of the image pipeline. -/
structure ImgEnv where
  /-- `ensure_clean_dir(module_mount_dir)` succeeds -/
  ensureCleanDirOk : Bool
  /-- the temporary image file exists at entry -/
  tmpImgExists : Bool
  /-- the pending-update marker file exists at entry -/
  markerExists : Bool
  /-- creating the marker file succeeds -/
  ensureMarkerOk : Bool
  /-- `fs::remove_file(tmp_module_path)` succeeds -/
  removeTmpOk : Bool
  /-- `calculate_total_size(module_dir)` returns `Ok` (no I/O error) -/
  calcOk : Bool
  /-- `fs::File::create(tmp_module_img)` succeeds -/
  createImgOk : Bool
  /-- `.set_len(grow_size)` succeeds -/
  setLenOk : Bool
  /-- `mkfs.ext4` spawns and exits successfully -/
  mkfsOk : Bool
  /-- `mount::AutoMountExt4::try_new` succeeds -/
  mountImageOk : Bool
  /-- the `sh -c "cp --preserve=context ..."` spawn and `wait` return `Ok`
  (the source never inspects the copy's exit status) -/
  copyOk : Bool
  /-- `fs::remove_file(module_update_flag)` succeeds (its error is
  discarded by `.ok()`) -/
  removeMarkerOk : Bool
  /-- the module source tree under `module_dir` -/
  moduleTree : FNode
  /-- inputs of the final `mount_systemlessly_overlayfs(module_mount_dir)`
  call against the mounted image -/
  imgOverlay : OverlayEnv

/-- The part of `mount_systemlessly_with_image` following the rebuild
block (event.rs 282-308): mount the image (`?` propagates), relabel it
(result discarded), copy the module tree into it when the marker is still
set — clearing the marker only after the copy command returns — and
finally run the overlay mount against the mounted image. -/
def image_pipeline_tail (env : ImgEnv) (t : List Ev) (st : ImgSt) :
    List Ev × ImgSt × Except Unit Unit :=
  -- mount::AutoMountExt4::try_new(...)?
  if !env.mountImageOk then (t, st, Except.error ()) else
  -- let _ = restorecon::restore_syscon(module_mount_dir);
  -- if module_update_flag.exists() { copy; fs::remove_file(flag).ok(); }
  let copyStep : Except Unit (List Ev × ImgSt) :=
    if st.marker then
      if !env.copyOk then Except.error ()
      else
        let t2 := t ++ [Ev.copyDone]
        if env.removeMarkerOk then
          Except.ok (t2 ++ [Ev.clearMarker], { st with marker := false })
        else
          Except.ok (t2, st)
    else
      Except.ok (t, st)
  match copyStep with
  | Except.error _ => (t, st, Except.error ())
  | Except.ok (t3, st3) =>
    (t3, st3, (mount_systemlessly_overlayfs env.imgOverlay).2)

/-- The marker-forcing step of `mount_systemlessly_with_image` (event.rs
237-239): when the temporary image file is absent, ensure the
pending-update marker exists (`?` propagates the creation failure). -/
def marker_setup_step (env : ImgEnv) (st0 : ImgSt) :
    Except Unit (List Ev × ImgSt) :=
  if !st0.tmpImg then
    match ensure_file_exists st0.marker env.ensureMarkerOk with
    | Except.error _ => Except.error ()
    | Except.ok _ =>
      if st0.marker then Except.ok ([], st0)
      else Except.ok ([Ev.setMarker], { st0 with marker := true })
  else
    Except.ok ([], st0)

/-- The rebuild block of `mount_systemlessly_with_image` (event.rs
241-280): remove the stale temporary image, size the module tree, create
and extend a fresh image of the computed length, format it; every `?` and
the `ensure!` propagate, and on success the pipeline tail runs. -/
def rebuild_block (env : ImgEnv) (t : List Ev) (st1 : ImgSt) :
    List Ev × ImgSt × Except Unit Unit :=
  -- if tmp_module_path.exists() { fs::remove_file(tmp_module_path)?; }
  match (if st1.tmpImg then
           (if env.removeTmpOk then Except.ok { st1 with tmpImg := false }
            else Except.error ())
         else Except.ok st1 : Except Unit ImgSt) with
  | Except.error _ => (t, st1, Except.error ())
  | Except.ok st2 =>
    -- let total_size = calculate_total_size(Path::new(module_dir))?;
    if !env.calcOk then (t, st2, Except.error ()) else
    let total_size := calculate_total_size env.moduleTree
    let grow_size := 128 * 1024 * 1024 + total_size
    -- fs::File::create(tmp_module_img)?
    if !env.createImgOk then (t, st2, Except.error ()) else
    let st3 : ImgSt := { st2 with tmpImg := true, imgLen := some 0 }
    -- .set_len(grow_size)?
    if !env.setLenOk then (t, st3, Except.error ()) else
    let st4 : ImgSt := { st3 with imgLen := some grow_size }
    -- mkfs.ext4 ... ensure!(result.status.success(), ...)
    if !env.mkfsOk then (t, st4, Except.error ()) else
    image_pipeline_tail env t st4

/-- `mount_systemlessly_with_image` (event.rs 225-309), tracking the
marker-relevant event trace, the abstract state, and the result.  The
`restore_syscon` call on the mounted image (event.rs 291) and the overlay
mounts of the final `mount_systemlessly_overlayfs` call touch neither the
marker nor the image file, so they contribute no `Ev` events; the final
call contributes its result. -/
def mount_systemlessly_with_image (env : ImgEnv) :
    List Ev × ImgSt × Except Unit Unit :=
  let st0 : ImgSt :=
    { marker := env.markerExists, tmpImg := env.tmpImgExists, imgLen := none }
  -- ensure_clean_dir(module_mount_dir)?
  if !env.ensureCleanDirOk then ([], st0, Except.error ()) else
  -- if !tmp_module_path.exists() { ensure_file_exists(&module_update_flag)? }
  match marker_setup_step env st0 with
  | Except.error _ => ([], st0, Except.error ())
  | Except.ok (t1, st1) =>
    -- if module_update_flag.exists() { remove tmp; size; create; mkfs }
    if st1.marker then
      rebuild_block env (t1 ++ [Ev.rebuildStart]) st1
    else
      image_pipeline_tail env t1 st1

/-! ## Mount-mode dispatch and the three-tier fallback chain
(`on_post_data_fs`, event.rs 446-504 and 520-521) -/

/-- `should_use_overlayfs` (event.rs 94-98). -/
def should_use_overlayfs (forceOverlayfsFileExists overlayfsAvailable : Bool) :
    Bool :=
  forceOverlayfsFileExists && overlayfsAvailable

/-- A mount strategy invoked by the dispatch. -/
inductive Tier where
  /-- `mount_systemlessly_with_image` -/
  | image
  /-- `mount_systemlessly_overlayfs` on the real module directory -/
  | direct
  /-- `magic_mount::magic_mount()` (legacy bind mount) -/
  | magic
  /-- `metamodule::exec_mount_script` -/
  | metamoduleScript
deriving DecidableEq, Repr

/-- Abstract inputs of the whole mount dispatch. -/
structure DispatchEnv where
  imgEnv : ImgEnv
  /-- inputs of tier 2, `mount_systemlessly_overlayfs(module_dir)` -/
  directEnv : OverlayEnv
  /-- whether `magic_mount()` succeeds (its error is only logged) -/
  magicOk : Bool

/-- The overlay-enabled fallback chain (event.rs 467-493): try the image
tier; on its error try the direct tier; on its error run the magic-mount
tier, whose own failure is only logged.  Every arm of the `match` returns
unit, so the chain itself never produces an error. -/
def overlay_fallback_chain (env : DispatchEnv) : List Tier × Except Unit Unit :=
  match (mount_systemlessly_with_image env.imgEnv).2.2 with
  | Except.ok _ => ([Tier.image], Except.ok ())
  | Except.error _ =>
    match (mount_systemlessly_overlayfs env.directEnv).2 with
    | Except.ok _ => ([Tier.image, Tier.direct], Except.ok ())
    | Except.error _ =>
      -- if let Err(e_magic) = magic_mount::magic_mount() { warn!(...) }
      ([Tier.image, Tier.direct, Tier.magic], Except.ok ())

/-- The mount-mode dispatch of `on_post_data_fs` (event.rs 450-504):
`disabled` mounts nothing, `metamodule` runs the custom mount script (its
error only logged), and `magic` (or any other value) uses the fallback
chain when overlayfs is enabled, else the legacy magic mount (its error
only logged). -/
def mount_mode_dispatch (mode : String) (useOverlayfs : Bool)
    (env : DispatchEnv) : List Tier × Except Unit Unit :=
  if mode = MOUNT_MODE_DISABLED then
    ([], Except.ok ())
  else if mode = MOUNT_MODE_METAMODULE then
    ([Tier.metamoduleScript], Except.ok ())
  else
    if useOverlayfs then overlay_fallback_chain env
    else ([Tier.magic], Except.ok ())

/-- The pending-update-marker-relevant event trace of a completed
`on_post_data_fs` run (non-safe-mode, no magisk): only the image tier of
the mount dispatch touches the marker, and the stage ends with the
unconditional `let _ = fs::remove_file(module_update_flag)` (event.rs
520-521), which runs after the dispatch regardless of its outcome. -/
def on_post_data_fs_marker_trace (mode : String) (useOverlayfs : Bool)
    (env : DispatchEnv) : List Ev :=
  (if mode = MOUNT_MODE_DISABLED then []
   else if mode = MOUNT_MODE_METAMODULE then []
   else if useOverlayfs then (mount_systemlessly_with_image env.imgEnv).1
   else []) ++ [Ev.finalClear]

/-- Whether the marker file exists after a (possibly truncated) event
trace, given its initial existence. -/
def markerAfter (init : Bool) (evs : List Ev) : Bool :=
  evs.foldl
    (fun m e =>
      match e with
      | Ev.setMarker => true
      | Ev.clearMarker => false
      | Ev.finalClear => false
      | _ => m)
    init

/-! ## PackageListWatcher debounce loop (`start_uid_listener`, event.rs 627-661)

The main loop owns a FIFO channel carrying `Bool` messages: `false` is a
"start" event posted by the inotify callback, `true` is the "fire" message
the loop posts to itself after the 1-second quiescence sleep.  The sleep
happens on the loop's own thread, so every start event of a burst arriving
within the quiescence window is already queued ahead of the self-posted
"fire" when the loop resumes; the run function models this by appending
self-posted messages behind the queued ones. -/

/-- Observable counters of the debounce loop, together with the `debounce`
flag of the source. -/
structure LoopState where
  debounce : Bool
  /-- number of quiescence windows opened (sleeps performed) -/
  windows : Nat
  /-- number of `refresh_ap_package_list` calls performed -/
  refreshes : Nat
deriving DecidableEq, Repr

/-- One iteration of the `while let Ok(delayed) = rx.recv()` body
(event.rs 648-659): on "fire" reset the flag and refresh; on "start" with
no pending window, sleep for the quiescence window, set the flag and post
"fire"; on "start" with a pending window, do nothing. -/
def uidListenerStep (s : LoopState) (delayed : Bool) : LoopState × List Bool :=
  if delayed then
    ({ s with debounce := false, refreshes := s.refreshes + 1 }, [])
  else if !s.debounce then
    ({ s with debounce := true, windows := s.windows + 1 }, [true])
  else
    (s, [])

/-- Run the loop on a FIFO queue of messages, appending self-posted
messages at the tail; `fuel` bounds the number of iterations. -/
def uidListenerRun : Nat → LoopState → List Bool → LoopState
  | 0, s, _ => s
  | Nat.succ _, s, [] => s
  | Nat.succ fuel, s, m :: q =>
    let (s2, emitted) := uidListenerStep s m
    uidListenerRun fuel s2 (q ++ emitted)

/-! ## Concrete scenarios used by witnesses and counterexamples -/

/-- A one-entry module tree that already carries the target label. -/
def c2Tree : List Entry :=
  [{ path := "/data/adb/modules/m", con := SYSTEM_CON, writeOk := true }]

/-- The concrete `restorecon` inputs for the C10 witness: the second
module entry's write fails, the third entry is never visited, and the RW
root's entry would fail but is ignored on the success path. -/
def c10Env : ReconEnv :=
  { daemonWriteOk := true
    moduleEntries :=
      [{ path := "/data/adb/modules/a", con := ADB_CON, writeOk := true },
       { path := "/data/adb/modules/b", con := ADB_CON, writeOk := false },
       { path := "/data/adb/modules/c", con := ADB_CON, writeOk := true }]
    rwDirExists := true
    rwEntries := [{ path := "/data/adb/rw", con := ADB_CON, writeOk := false }] }

/-- A neutral, successful direct-overlay environment (unreadable module
root), reused as a leaf input by several concrete scenarios. -/
def noopOverlayEnv : OverlayEnv :=
  { readDirOk := false
    partitions := ["vendor"]
    existingRoots := ["vendor"]
    modules := []
    mountEnv := { systemRwDirExists := false, mountOverlayOk := fun _ => true } }

/-- An image-tier environment in which every external operation succeeds
and no rebuild is pending. -/
def allOkImgEnv : ImgEnv :=
  { ensureCleanDirOk := true
    tmpImgExists := true
    markerExists := false
    ensureMarkerOk := true
    removeTmpOk := true
    calcOk := true
    createImgOk := true
    setLenOk := true
    mkfsOk := true
    mountImageOk := true
    copyOk := true
    removeMarkerOk := true
    moduleTree := FNode.dir []
    imgOverlay := noopOverlayEnv }

/-- The dispatch scenario in which the image tier succeeds. -/
def c3Env : DispatchEnv :=
  { imgEnv := allOkImgEnv, directEnv := noopOverlayEnv, magicOk := true }

/-- The dispatch scenario for the C9 witness: the image tier fails at its
first step and the module root of the direct tier is unreadable. -/
def c9Env : DispatchEnv :=
  { imgEnv := { allOkImgEnv with ensureCleanDirOk := false }
    directEnv := noopOverlayEnv
    magicOk := true }

/-- The image-tier scenario for the C8 witness: a pending update marker
and a module tree of 12 bytes (a 5-byte file, a symlink, and a
subdirectory holding a 7-byte file). -/
def c8Env : ImgEnv :=
  { allOkImgEnv with
    markerExists := true
    moduleTree := FNode.dir [FNode.file 5, FNode.other, FNode.dir [FNode.file 7]] }

/-- The dispatch scenario for the C1 counterexample: a rebuild is pending
(marker set), every operation succeeds except the module-copy command,
whose spawn fails. -/
def c1Env : DispatchEnv :=
  { imgEnv := { allOkImgEnv with markerExists := true, copyOk := false }
    directEnv := noopOverlayEnv
    magicOk := true }

/-- The discovery scenario for the C4 witness: two tracked partitions of
which only `vendor` has a root directory, and one active module
contributing both a `system/vendor` and a `vendor` subtree. -/
def c4Env : OverlayEnv :=
  { readDirOk := true
    partitions := ["vendor", "product"]
    existingRoots := ["vendor"]
    modules :=
      [{ name := "m1", isDir := true, disabled := false, skipMount := false,
         hasSystemDir := true, topPartDirs := ["vendor"],
         sysPartDirs := ["vendor"] }]
    mountEnv := { systemRwDirExists := false, mountOverlayOk := fun _ => true } }

/-! ## Helper lemmas -/

/-- `mode_from_file` only ever produces one of the three recognized mode
strings. -/
theorem mode_from_file_recognized (env : ModeEnv) (m : String)
    (h : mode_from_file env = some m) :
    m = MOUNT_MODE_MAGIC ∨ m = MOUNT_MODE_METAMODULE ∨ m = MOUNT_MODE_DISABLED := by
  unfold mode_from_file at h
  split at h
  · cases hr : env.readResult with
    | none => rw [hr] at h; exact absurd h (by simp)
    | some content =>
      rw [hr] at h
      simp only at h
      split at h
      · cases h; assumption
      · exact absurd h (by simp)
  · exact absurd h (by simp)

/-! ## C5 — mount-mode normalization -/

/-- C5: the mode returned by `get_mount_mode` is always one of
`{magic, metamodule, disabled}`; whenever no valid mode is read from the
mode file, the result is `disabled` when the legacy lite-mode marker
exists and `magic` otherwise. -/
theorem C5_mount_mode_normalization (env : ModeEnv) :
    (get_mount_mode env = MOUNT_MODE_MAGIC ∨
      get_mount_mode env = MOUNT_MODE_METAMODULE ∨
      get_mount_mode env = MOUNT_MODE_DISABLED) ∧
    (mode_from_file env = none →
      get_mount_mode env =
        (if env.litemodeExists then MOUNT_MODE_DISABLED else MOUNT_MODE_MAGIC)) := by
  constructor
  · unfold get_mount_mode
    cases h : mode_from_file env with
    | some m => exact mode_from_file_recognized env m h
    | none =>
      by_cases hl : env.litemodeExists <;> simp [hl, MOUNT_MODE_MAGIC, MOUNT_MODE_DISABLED]
  · intro h
    unfold get_mount_mode
    rw [h]

/-- C5 witness: a present mode file holding an unrecognized value together
with the legacy lite-mode marker normalizes to `disabled`. -/
theorem C5_witness :
    get_mount_mode { modeFileExists := true, readResult := some "bogus",
                     litemodeExists := true } = MOUNT_MODE_DISABLED := by
  have h :=
    (C5_mount_mode_normalization
      { modeFileExists := true, readResult := some "bogus", litemodeExists := true }).2
    (by decide)
  simpa using h

/-! ## C7 — empty lowerdir list is a successful no-op -/

/-- C7: mounting a partition with an empty lowerdir list succeeds with an
empty effect trace: zero mount syscalls, and no upperdir/workdir creation
or relabeling. -/
theorem C7_empty_lowerdir_noop (menv : MountEnv) (name : String) :
    mount_partition menv name [] = ([], Except.ok ()) ∧
    ((mount_partition menv name []).1.filter FsAction.isMount).length = 0 :=
  ⟨rfl, rfl⟩

/-! ## Relabeling lemmas -/

/-- When every write succeeds, `restore_syscon` performs exactly one
unconditional label write per walked entry and succeeds. -/
theorem restore_syscon_all_ok (entries : List Entry)
    (h : ∀ e ∈ entries, e.writeOk = true) :
    restore_syscon entries =
      (entries.map fun e => LabelAction.write e.path SYSTEM_CON, Except.ok ()) := by
  induction entries with
  | nil => rfl
  | cons e rest ih =>
    have he : e.writeOk = true := h e (List.mem_cons_self e rest)
    have hrest := ih fun x hx => h x (List.mem_cons_of_mem e hx)
    simp [restore_syscon, he, hrest]

/-- `restore_syscon` is fail-fast: the first failing entry aborts the walk
with that entry's error, the attempted actions being exactly the writes up
to and including the failing one. -/
theorem restore_syscon_fail (pre : List Entry) (e : Entry) (post : List Entry)
    (hpre : ∀ x ∈ pre, x.writeOk = true) (he : e.writeOk = false) :
    restore_syscon (pre ++ e :: post) =
      ((pre.map fun x => LabelAction.write x.path SYSTEM_CON) ++
        [LabelAction.write e.path SYSTEM_CON],
       Except.error e.path) := by
  induction pre with
  | nil => simp [restore_syscon, he]
  | cons x rest ih =>
    have hx : x.writeOk = true := hpre x (List.mem_cons_self x rest)
    have hrest := ih fun y hy => hpre y (List.mem_cons_of_mem x hy)
    simp [restore_syscon, hx, hrest]

/-! ## C2 — relabeling is not read-before-write (corrected) -/

/-- C2 counterexample: on a tree whose single entry already carries the
target security label, `restore_syscon` performs one label write and zero
label reads — refuting both the read-before-write and the
zero-writes-on-correct-trees parts of the claim. -/
theorem C2_counterexample :
    (∀ e ∈ c2Tree, e.con = SYSTEM_CON) ∧
    ((restore_syscon c2Tree).1.filter LabelAction.isWrite).length = 1 ∧
    ((restore_syscon c2Tree).1.filter LabelAction.isRead).length = 0 := by
  decide

/-- C2 (amended): tree relabeling writes the target label unconditionally,
without reading current labels: on any tree whose writes succeed — in
particular one already carrying the target label throughout — it performs
exactly one label write per entry (write count equals entry count, never
zero for a nonempty tree), zero label reads, and succeeds; it is
idempotent only in the sense that every write stores the same target
label, leaving the labels of an already-correct tree unchanged. -/
theorem C2_relabel_unconditional (entries : List Entry)
    (h : ∀ e ∈ entries, e.writeOk = true) :
    (restore_syscon entries).1 =
      (entries.map fun e => LabelAction.write e.path SYSTEM_CON) ∧
    ((restore_syscon entries).1.filter LabelAction.isWrite).length =
      entries.length ∧
    ((restore_syscon entries).1.filter LabelAction.isRead).length = 0 ∧
    (restore_syscon entries).2 = Except.ok () := by
  have hall := restore_syscon_all_ok entries h
  refine ⟨by rw [hall], ?_, ?_, by rw [hall]⟩
  · rw [hall]
    simp [List.filter_map, LabelAction.isWrite, Function.comp]
  · rw [hall]
    simp [List.filter_map, LabelAction.isRead, Function.comp]

/-- C2 witness: the amended theorem evaluated on the concrete
already-correct one-entry tree. -/
theorem C2_witness :
    (restore_syscon c2Tree).1 =
      [LabelAction.write "/data/adb/modules/m" SYSTEM_CON] ∧
    ((restore_syscon c2Tree).1.filter LabelAction.isWrite).length = 1 := by
  have h := C2_relabel_unconditional c2Tree (by decide)
  exact ⟨h.1, h.2.1⟩

/-! ## C10 — module-tree relabel is fail-fast; RW-root failures ignored -/

/-- C10: relabeling the module tree aborts at the first entry whose label
write fails, returning that entry's error with later entries unvisited
(the trace is exactly the daemon write, the successful writes before the
failure, and the failing attempt); by contrast, `restorecon` discards the
result of relabeling the persistent RW overlay root, succeeding whatever
its entries' write outcomes. -/
theorem C10_relabel_fail_fast :
    (∀ (env : ReconEnv) (pre : List Entry) (e : Entry) (post : List Entry),
      env.daemonWriteOk = true →
      env.moduleEntries = pre ++ e :: post →
      (∀ x ∈ pre, x.writeOk = true) →
      e.writeOk = false →
      restorecon env =
        (LabelAction.write DAEMON_PATH ADB_CON ::
          ((pre.map fun x => LabelAction.write x.path SYSTEM_CON) ++
            [LabelAction.write e.path SYSTEM_CON]),
         Except.error e.path)) ∧
    (∀ env : ReconEnv,
      env.daemonWriteOk = true →
      (∀ x ∈ env.moduleEntries, x.writeOk = true) →
      (restorecon env).2 = Except.ok ()) := by
  constructor
  · intro env pre e post hd hsplit hpre he
    have hfail := restore_syscon_fail pre e post hpre he
    simp [restorecon, hd, hsplit, hfail]
  · intro env hd hall
    have hok := restore_syscon_all_ok env.moduleEntries hall
    simp [restorecon, hd, hok]

/-- C10 witness: both conjuncts evaluated on concrete inputs — the walk
stops at the failing second entry, and with all module writes succeeding
the RW-root failure is ignored. -/
theorem C10_witness :
    restorecon c10Env =
      (LabelAction.write DAEMON_PATH ADB_CON ::
        [LabelAction.write "/data/adb/modules/a" SYSTEM_CON,
         LabelAction.write "/data/adb/modules/b" SYSTEM_CON],
       Except.error "/data/adb/modules/b") ∧
    (restorecon { c10Env with
        moduleEntries :=
          [{ path := "/data/adb/modules/a", con := ADB_CON, writeOk := true }] }).2 =
      Except.ok () := by
  constructor
  · have h := C10_relabel_fail_fast.1 c10Env
      [{ path := "/data/adb/modules/a", con := ADB_CON, writeOk := true }]
      { path := "/data/adb/modules/b", con := ADB_CON, writeOk := false }
      [{ path := "/data/adb/modules/c", con := ADB_CON, writeOk := true }]
      rfl rfl (by decide) rfl
    simpa using h
  · exact C10_relabel_fail_fast.2 _ rfl (by decide)

/-- While a debounce window is pending, queued "start" events are ignored,
and the self-posted "fire" then performs exactly one refresh and resets the
flag. -/
theorem uidListener_drain (k : Nat) : ∀ s : LoopState, s.debounce = true →
    uidListenerRun (k + 1) s (List.replicate k false ++ [true]) =
      { s with debounce := false, refreshes := s.refreshes + 1 } := by
  induction k with
  | zero =>
    intro s hs
    simp [uidListenerRun, uidListenerStep]
  | succ n ih =>
    intro s hs
    rw [List.replicate_succ]
    simp only [List.cons_append, uidListenerRun, uidListenerStep, hs]
    simpa using ih s hs

/-! ## C6 — a burst of start events yields one window and one refresh -/

/-- C6: for every burst of `n ≥ 1` "start" events arriving within one
quiescence window (so that they are all queued ahead of the self-posted
"fire"), the loop opens exactly one debounce window, performs exactly one
refresh, and returns to the idle state; the starts that find the window
pending open no new timer. -/
theorem C6_debounce_single_refresh (n : Nat) (h : 1 ≤ n) :
    uidListenerRun (n + 1) { debounce := false, windows := 0, refreshes := 0 }
      (List.replicate n false) =
      { debounce := false, windows := 1, refreshes := 1 } := by
  obtain ⟨k, rfl⟩ : ∃ k, n = k + 1 := ⟨n - 1, (Nat.succ_pred_eq_of_pos h).symm⟩
  rw [List.replicate_succ]
  simp only [uidListenerRun, uidListenerStep]
  simpa using
    uidListener_drain k { debounce := true, windows := 1, refreshes := 0 } rfl

/-- C6 witness: a burst of three start events produces exactly one window
and one refresh. -/
theorem C6_witness :
    uidListenerRun 4 { debounce := false, windows := 0, refreshes := 0 }
      (List.replicate 3 false) =
      { debounce := false, windows := 1, refreshes := 1 } :=
  C6_debounce_single_refresh 3 (by decide)

/-! ## C3 — the three-tier fallback chain -/

/-- C3: in a run with overlay enabled (magic mode, `should_use_overlayfs`
true), the direct tier is attempted exactly when the image tier fails, the
legacy magic-mount tier is attempted exactly when both earlier tiers fail,
a tier success short-circuits all later tiers, and the dispatch never
propagates an error to the calling boot stage. -/
theorem C3_three_tier_fallback (env : DispatchEnv) :
    ((mount_systemlessly_with_image env.imgEnv).2.2 = Except.ok () →
      mount_mode_dispatch MOUNT_MODE_MAGIC true env =
        ([Tier.image], Except.ok ())) ∧
    (Tier.direct ∈ (mount_mode_dispatch MOUNT_MODE_MAGIC true env).1 ↔
      (mount_systemlessly_with_image env.imgEnv).2.2 = Except.error ()) ∧
    (Tier.magic ∈ (mount_mode_dispatch MOUNT_MODE_MAGIC true env).1 ↔
      ((mount_systemlessly_with_image env.imgEnv).2.2 = Except.error () ∧
        (mount_systemlessly_overlayfs env.directEnv).2 = Except.error ())) ∧
    ((mount_systemlessly_with_image env.imgEnv).2.2 = Except.error () →
      (mount_systemlessly_overlayfs env.directEnv).2 = Except.ok () →
      mount_mode_dispatch MOUNT_MODE_MAGIC true env =
        ([Tier.image, Tier.direct], Except.ok ())) ∧
    (mount_mode_dispatch MOUNT_MODE_MAGIC true env).2 = Except.ok () := by
  have hd : mount_mode_dispatch MOUNT_MODE_MAGIC true env =
      overlay_fallback_chain env := by
    simp [mount_mode_dispatch, MOUNT_MODE_MAGIC, MOUNT_MODE_METAMODULE,
      MOUNT_MODE_DISABLED]
  rw [hd]
  unfold overlay_fallback_chain
  cases h1 : (mount_systemlessly_with_image env.imgEnv).2.2 with
  | error u =>
    cases u
    cases h2 : (mount_systemlessly_overlayfs env.directEnv).2 with
    | error v => cases v; simp
    | ok v => cases v; simp
  | ok u => cases u; simp

/-- C3 witness: with every image-tier operation succeeding, the dispatch
attempts the image tier alone and reports success. -/
theorem C3_witness :
    mount_mode_dispatch MOUNT_MODE_MAGIC true c3Env =
      ([Tier.image], Except.ok ()) :=
  (C3_three_tier_fallback c3Env).1 rfl

/-! ## C9 — unreadable module root: vacuous tier-2 success -/

/-- C9: when the module root directory cannot be read, the direct tier
succeeds with an empty effect trace (zero overlay mounts), and in the
fallback chain this vacuous success means the legacy magic-mount tier is
never attempted. -/
theorem C9_unreadable_root_vacuous_success :
    (∀ env : OverlayEnv, env.readDirOk = false →
      mount_systemlessly_overlayfs env = ([], Except.ok ())) ∧
    (∀ denv : DispatchEnv, denv.directEnv.readDirOk = false →
      Tier.magic ∉ (overlay_fallback_chain denv).1) := by
  have hbase : ∀ env : OverlayEnv, env.readDirOk = false →
      mount_systemlessly_overlayfs env = ([], Except.ok ()) := by
    intro env h
    simp [mount_systemlessly_overlayfs, h]
  refine ⟨hbase, ?_⟩
  intro denv h
  unfold overlay_fallback_chain
  cases h1 : (mount_systemlessly_with_image denv.imgEnv).2.2 with
  | error u => rw [hbase denv.directEnv h]; simp
  | ok u => simp

/-- C9 witness: the vacuous tier-2 success on a concrete unreadable module
root, and the resulting absence of the magic-mount tier from a chain whose
image tier failed. -/
theorem C9_witness :
    mount_systemlessly_overlayfs noopOverlayEnv = ([], Except.ok ()) ∧
    Tier.magic ∉ (overlay_fallback_chain c9Env).1 :=
  ⟨C9_unreadable_root_vacuous_success.1 noopOverlayEnv rfl,
   C9_unreadable_root_vacuous_success.2 c9Env rfl⟩

/-! ## Image-pipeline lemmas -/

/-- The tail of the image pipeline appends at most a `copyDone` and a
`clearMarker` event to the trace it is given. -/
theorem image_tail_trace_cases (env : ImgEnv) (t : List Ev) (st : ImgSt) :
    (image_pipeline_tail env t st).1 = t ∨
    (image_pipeline_tail env t st).1 = t ++ [Ev.copyDone] ∨
    (image_pipeline_tail env t st).1 = t ++ [Ev.copyDone, Ev.clearMarker] := by
  unfold image_pipeline_tail
  cases hm : env.mountImageOk with
  | false => simp
  | true =>
    cases hs : st.marker with
    | false => simp [hs]
    | true =>
      cases hc : env.copyOk with
      | false => simp [hs]
      | true =>
        cases hr : env.removeMarkerOk with
        | false => simp [hs, hr]
        | true => simp [hs, hr]

/-- The tail of the image pipeline never emits a `rebuildStart` event. -/
theorem image_tail_rebuild_mem (env : ImgEnv) (t : List Ev) (st : ImgSt) :
    Ev.rebuildStart ∈ (image_pipeline_tail env t st).1 ↔ Ev.rebuildStart ∈ t := by
  rcases image_tail_trace_cases env t st with h | h | h <;> rw [h] <;> simp

/-- The tail of the image pipeline never changes the image length. -/
theorem image_tail_imgLen (env : ImgEnv) (t : List Ev) (st : ImgSt) :
    (image_pipeline_tail env t st).2.1.imgLen = st.imgLen := by
  unfold image_pipeline_tail
  cases hm : env.mountImageOk with
  | false => simp
  | true =>
    cases hs : st.marker with
    | false => simp [hs]
    | true =>
      cases hc : env.copyOk with
      | false => simp [hs]
      | true =>
        cases hr : env.removeMarkerOk with
        | false => simp [hs, hr]
        | true => simp [hs, hr]

/-- With the temporary image present, the marker-forcing step is a no-op. -/
theorem marker_setup_of_tmp (env : ImgEnv) (st0 : ImgSt)
    (h : st0.tmpImg = true) :
    marker_setup_step env st0 = Except.ok ([], st0) := by
  simp [marker_setup_step, h]

/-- With the image absent but the marker already set, the marker-forcing
step changes nothing. -/
theorem marker_setup_of_marked (env : ImgEnv) (st0 : ImgSt)
    (h : st0.tmpImg = false) (hm : st0.marker = true) :
    marker_setup_step env st0 = Except.ok ([], st0) := by
  simp [marker_setup_step, h, hm, ensure_file_exists]

/-- With both the image and the marker absent, the marker-forcing step
creates the marker. -/
theorem marker_setup_forced (env : ImgEnv) (st0 : ImgSt)
    (h : st0.tmpImg = false) (hm : st0.marker = false)
    (he : env.ensureMarkerOk = true) :
    marker_setup_step env st0 =
      Except.ok ([Ev.setMarker], { st0 with marker := true }) := by
  simp [marker_setup_step, h, hm, he, ensure_file_exists]

/-- The rebuild block never emits a `rebuildStart` event of its own: its
trace contains one exactly when the trace passed to it does. -/
theorem rebuild_block_rebuild_mem (env : ImgEnv) (t : List Ev) (st1 : ImgSt) :
    Ev.rebuildStart ∈ (rebuild_block env t st1).1 ↔ Ev.rebuildStart ∈ t := by
  unfold rebuild_block
  cases h1 : st1.tmpImg <;> cases h2 : env.removeTmpOk <;>
    cases h3 : env.calcOk <;> cases h4 : env.createImgOk <;>
      cases h5 : env.setLenOk <;> cases h6 : env.mkfsOk <;>
        simp [h1, h2, h3, h4, h5, h6, image_tail_rebuild_mem]

/-- When its remove/size/create/extend steps succeed, the rebuild block
leaves the image file at exactly the module-tree size plus 128 MiB. -/
theorem rebuild_block_imgLen (env : ImgEnv) (t : List Ev) (st1 : ImgSt)
    (hrto : env.removeTmpOk = true) (hc : env.calcOk = true)
    (hcio : env.createImgOk = true) (hslo : env.setLenOk = true) :
    (rebuild_block env t st1).2.1.imgLen =
      some (128 * 1024 * 1024 + calculate_total_size env.moduleTree) := by
  unfold rebuild_block
  cases h1 : st1.tmpImg <;> cases h6 : env.mkfsOk <;>
    simp [h1, h6, hrto, hc, hcio, hslo, image_tail_imgLen]

/-! ## C8 — rebuild condition and image sizing -/

/-- C8: provided the mount-point cleanup succeeds and the marker can be
created when forced (so the pipeline reaches the rebuild test), the
rebuild branch runs if and only if the marker was set or the previous
image was absent; and when it runs with the remove/size/create/extend
steps succeeding, the fresh image file's length is exactly the recursive
byte size of the module source tree plus 128 MiB. -/
theorem C8_image_rebuild_and_size (env : ImgEnv)
    (h1 : env.ensureCleanDirOk = true)
    (h2 : env.tmpImgExists = true ∨ env.ensureMarkerOk = true) :
    ((Ev.rebuildStart ∈ (mount_systemlessly_with_image env).1) ↔
      (env.markerExists = true ∨ env.tmpImgExists = false)) ∧
    ((env.markerExists = true ∨ env.tmpImgExists = false) →
      env.removeTmpOk = true → env.calcOk = true →
      env.createImgOk = true → env.setLenOk = true →
      (mount_systemlessly_with_image env).2.1.imgLen =
        some (128 * 1024 * 1024 + calculate_total_size env.moduleTree)) := by
  have hemoOf : env.tmpImgExists = false → env.ensureMarkerOk = true := by
    intro htie
    rcases h2 with h | h
    · rw [htie] at h; exact absurd h (by simp)
    · exact h
  constructor
  · cases htie : env.tmpImgExists with
    | true =>
      cases hme : env.markerExists with
      | true =>
        have hsetup := marker_setup_of_tmp env
          { marker := true, tmpImg := true, imgLen := none } rfl
        simp [mount_systemlessly_with_image, h1, hsetup, hme, htie,
          rebuild_block_rebuild_mem]
      | false =>
        have hsetup := marker_setup_of_tmp env
          { marker := false, tmpImg := true, imgLen := none } rfl
        simp [mount_systemlessly_with_image, h1, hsetup, hme, htie,
          image_tail_rebuild_mem]
    | false =>
      have hemo := hemoOf htie
      cases hme : env.markerExists with
      | true =>
        have hsetup := marker_setup_of_marked env
          { marker := true, tmpImg := false, imgLen := none } rfl rfl
        simp [mount_systemlessly_with_image, h1, hsetup, hme, htie,
          rebuild_block_rebuild_mem]
      | false =>
        have hsetup := marker_setup_forced env
          { marker := false, tmpImg := false, imgLen := none } rfl rfl hemo
        simp [mount_systemlessly_with_image, h1, hsetup, hme, htie,
          rebuild_block_rebuild_mem]
  · intro hreb hrto hco hcio hslo
    cases htie : env.tmpImgExists with
    | true =>
      have hme : env.markerExists = true := by
        rcases hreb with h | h
        · exact h
        · rw [htie] at h; exact absurd h (by simp)
      have hsetup := marker_setup_of_tmp env
        { marker := true, tmpImg := true, imgLen := none } rfl
      rw [show (mount_systemlessly_with_image env).2.1 =
          (rebuild_block env ([] ++ [Ev.rebuildStart])
            { marker := true, tmpImg := true, imgLen := none }).2.1 by
        simp [mount_systemlessly_with_image, h1, hsetup, hme, htie]]
      exact rebuild_block_imgLen env _ _ hrto hco hcio hslo
    | false =>
      have hemo := hemoOf htie
      cases hme : env.markerExists with
      | true =>
        have hsetup := marker_setup_of_marked env
          { marker := true, tmpImg := false, imgLen := none } rfl rfl
        rw [show (mount_systemlessly_with_image env).2.1 =
            (rebuild_block env ([] ++ [Ev.rebuildStart])
              { marker := true, tmpImg := false, imgLen := none }).2.1 by
          simp [mount_systemlessly_with_image, h1, hsetup, hme, htie]]
        exact rebuild_block_imgLen env _ _ hrto hco hcio hslo
      | false =>
        have hsetup := marker_setup_forced env
          { marker := false, tmpImg := false, imgLen := none } rfl rfl hemo
        rw [show (mount_systemlessly_with_image env).2.1 =
            (rebuild_block env ([Ev.setMarker] ++ [Ev.rebuildStart])
              { marker := true, tmpImg := false, imgLen := none }).2.1 by
          simp [mount_systemlessly_with_image, h1, hsetup, hme, htie]]
        exact rebuild_block_imgLen env _ _ hrto hco hcio hslo

/-- C8 witness: on a 12-byte module tree with the marker set, the image is
created with length 128 MiB + 12 bytes. -/
theorem C8_witness :
    (mount_systemlessly_with_image c8Env).2.1.imgLen = some 134217740 := by
  have h := (C8_image_rebuild_and_size c8Env rfl (Or.inl rfl)).2
    (Or.inl rfl) rfl rfl rfl rfl
  rw [h]
  norm_num [c8Env, allOkImgEnv, calculate_total_size, sizeEntries]

/-! ## Marker-trace lemmas for the pending-update marker -/

/-- The three possible outcomes of the marker-forcing step. -/
theorem marker_setup_cases (env : ImgEnv) (st0 : ImgSt) :
    marker_setup_step env st0 = Except.error () ∨
    marker_setup_step env st0 = Except.ok ([], st0) ∨
    marker_setup_step env st0 =
      Except.ok ([Ev.setMarker], { st0 with marker := true }) := by
  unfold marker_setup_step ensure_file_exists
  cases h1 : st0.tmpImg <;> cases h2 : st0.marker <;>
    cases h3 : env.ensureMarkerOk <;> simp [h1, h2, h3]

/-- The rebuild block appends at most a `copyDone` and a `clearMarker`
event to the trace it is given. -/
theorem rebuild_block_trace_cases (env : ImgEnv) (t : List Ev) (st1 : ImgSt) :
    (rebuild_block env t st1).1 = t ∨
    (rebuild_block env t st1).1 = t ++ [Ev.copyDone] ∨
    (rebuild_block env t st1).1 = t ++ [Ev.copyDone, Ev.clearMarker] := by
  unfold rebuild_block
  cases h1 : st1.tmpImg <;> cases h2 : env.removeTmpOk <;>
    cases h3 : env.calcOk <;> cases h4 : env.createImgOk <;>
      cases h5 : env.setLenOk <;> cases h6 : env.mkfsOk <;>
        simp [h1, h2, h3, h4, h5, h6] <;>
          exact image_tail_trace_cases env t _

/-- Every trace of the image pipeline splits into a clean prefix — free of
`clearMarker` and `finalClear` events — optionally followed by the copy
completion and the marker removal it alone enables. -/
theorem img_trace_shape (env : ImgEnv) :
    ∃ u, Ev.clearMarker ∉ u ∧ Ev.finalClear ∉ u ∧
      ((mount_systemlessly_with_image env).1 = u ∨
       (mount_systemlessly_with_image env).1 = u ++ [Ev.copyDone] ∨
       (mount_systemlessly_with_image env).1 = u ++ [Ev.copyDone, Ev.clearMarker]) := by
  unfold mount_systemlessly_with_image
  cases hcd : env.ensureCleanDirOk with
  | false => exact ⟨[], by simp, by simp, Or.inl (by simp)⟩
  | true =>
    simp only [hcd, Bool.not_true, Bool.false_eq_true, if_false, ite_false]
    rcases marker_setup_cases env
        { marker := env.markerExists, tmpImg := env.tmpImgExists,
          imgLen := none } with hs | hs | hs
    · rw [hs]
      exact ⟨[], by simp, by simp, Or.inl (by simp)⟩
    · rw [hs]
      cases hm : env.markerExists with
      | true =>
        refine ⟨[Ev.rebuildStart], by simp, by simp, ?_⟩
        simpa [hm] using rebuild_block_trace_cases env [Ev.rebuildStart] _
      | false =>
        refine ⟨[], by simp, by simp, ?_⟩
        simpa [hm] using image_tail_trace_cases env [] _
    · rw [hs]
      refine ⟨[Ev.setMarker, Ev.rebuildStart], by simp, by simp, ?_⟩
      simpa using
        rebuild_block_trace_cases env [Ev.setMarker, Ev.rebuildStart] _

/-- If a prefix of the image-pipeline trace contains no copy completion,
it contains no marker removal and no stage-end removal either. -/
theorem img_trace_prefix_no_clear (env : ImgEnv) (k : Nat)
    (hc : Ev.copyDone ∉ (mount_systemlessly_with_image env).1.take k) :
    Ev.clearMarker ∉ (mount_systemlessly_with_image env).1.take k ∧
    Ev.finalClear ∉ (mount_systemlessly_with_image env).1.take k := by
  obtain ⟨u, hcl, hfl, hsh⟩ := img_trace_shape env
  rcases hsh with h | h | h
  · rw [h]
    exact ⟨fun hx => hcl (List.take_subset k u hx),
           fun hx => hfl (List.take_subset k u hx)⟩
  · rw [h] at hc ⊢
    rcases le_or_lt k u.length with hk | hk
    · rw [List.take_append_of_le_length hk] at hc ⊢
      exact ⟨fun hx => hcl (List.take_subset k u hx),
             fun hx => hfl (List.take_subset k u hx)⟩
    · exfalso
      apply hc
      rw [List.take_of_length_le (by simp; omega)]
      simp
  · rw [h] at hc ⊢
    rcases le_or_lt k u.length with hk | hk
    · rw [List.take_append_of_le_length hk] at hc ⊢
      exact ⟨fun hx => hcl (List.take_subset k u hx),
             fun hx => hfl (List.take_subset k u hx)⟩
    · exfalso
      apply hc
      rw [List.take_append_eq_append_take,
        List.take_of_length_le (Nat.le_of_lt hk)]
      obtain ⟨m, hm⟩ : ∃ m, k - u.length = m + 1 :=
        ⟨k - u.length - 1, by omega⟩
      rw [hm]
      simp

/-- A trace free of both removal events leaves a set marker set. -/
theorem markerAfter_true_of_no_clear (l : List Ev)
    (hcl : Ev.clearMarker ∉ l) (hfl : Ev.finalClear ∉ l) :
    markerAfter true l = true := by
  induction l with
  | nil => rfl
  | cons e rest ih =>
    have hcl' : Ev.clearMarker ∉ rest := fun hx => hcl (List.mem_cons_of_mem e hx)
    have hfl' : Ev.finalClear ∉ rest := fun hx => hfl (List.mem_cons_of_mem e hx)
    cases e with
    | setMarker => simpa [markerAfter] using ih hcl' hfl'
    | rebuildStart => simpa [markerAfter] using ih hcl' hfl'
    | copyDone => simpa [markerAfter] using ih hcl' hfl'
    | clearMarker => exact absurd (List.mem_cons_self _ _) hcl
    | finalClear => exact absurd (List.mem_cons_self _ _) hfl

/-! ## C1 — pending-update marker and the copy step (corrected) -/

/-- C1 counterexample: a run in which the copy step fails (its spawn
returns an error) but the process does not crash.  The image tier reports
the error and the stage falls back, yet `on_post_data_fs` unconditionally
removes the marker at its end, so the marker is absent when the run ends —
refuting the claim that every run with a failed copy ends with the marker
still present. -/
theorem C1_counterexample :
    c1Env.imgEnv.copyOk = false ∧
    (mount_systemlessly_with_image c1Env.imgEnv).2.2 = Except.error () ∧
    markerAfter true (on_post_data_fs_marker_trace MOUNT_MODE_MAGIC true c1Env)
      = false :=
  ⟨rfl, rfl, rfl⟩

/-- C1 (amended): the marker-clear inside the image pipeline happens only
immediately after the copy step completes, so for every run that is
interrupted — ends at that point, short of the stage-end cleanup — before
the copy completes, a marker that was set at the start of the run is still
present, and the rebuild is re-triggered on the next boot.  (When the copy
step instead fails with an error and the run continues to completion,
`on_post_data_fs` removes the marker unconditionally at the end of the
stage, as the counterexample shows.) -/
theorem C1_marker_crash_safety (env : DispatchEnv) (k : Nat)
    (_hm : env.imgEnv.markerExists = true)
    (hk : k < (on_post_data_fs_marker_trace MOUNT_MODE_MAGIC true env).length)
    (hc : Ev.copyDone ∉
      (on_post_data_fs_marker_trace MOUNT_MODE_MAGIC true env).take k) :
    markerAfter true
      ((on_post_data_fs_marker_trace MOUNT_MODE_MAGIC true env).take k) = true := by
  have htr : on_post_data_fs_marker_trace MOUNT_MODE_MAGIC true env =
      (mount_systemlessly_with_image env.imgEnv).1 ++ [Ev.finalClear] := by
    simp [on_post_data_fs_marker_trace, MOUNT_MODE_MAGIC, MOUNT_MODE_DISABLED,
      MOUNT_MODE_METAMODULE]
  rw [htr] at hk hc ⊢
  have hlen : k ≤ (mount_systemlessly_with_image env.imgEnv).1.length := by
    rw [List.length_append] at hk
    simpa using Nat.lt_succ_iff.mp (by simpa using hk)
  rw [List.take_append_of_le_length hlen] at hc ⊢
  obtain ⟨hcl, hfl⟩ := img_trace_prefix_no_clear env.imgEnv k hc
  exact markerAfter_true_of_no_clear _ hcl hfl

/-- C1 witness: the amended theorem at the concrete failing-copy scenario,
interrupted right after the rebuild begins: the marker is still present. -/
theorem C1_witness :
    markerAfter true
      ((on_post_data_fs_marker_trace MOUNT_MODE_MAGIC true c1Env).take 1) = true :=
  C1_marker_crash_safety c1Env 1 rfl (by decide) (by decide)

/-! ## Discovery-map lemmas -/

/-- Unfolding `pushLayers` over a cons cell. -/
theorem pushLayers_cons (k : String) (v : List Layer)
    (rest : List (String × List Layer)) (p : String) (ls : List Layer) :
    pushLayers ((k, v) :: rest) p ls =
      (if k = p then (k, v ++ ls) else (k, v)) :: pushLayers rest p ls := rfl

/-- `pushLayers` appends to the entry of the pushed key. -/
theorem lookupPart_pushLayers_self (map : List (String × List Layer))
    (p : String) (ls : List Layer) :
    lookupPart p (pushLayers map p ls) = (lookupPart p map).map (· ++ ls) := by
  induction map with
  | nil => rfl
  | cons kv rest ih =>
    obtain ⟨k, v⟩ := kv
    rw [pushLayers_cons]
    by_cases h : k = p
    · subst h
      rw [if_pos rfl]
      simp [lookupPart]
    · rw [if_neg h]
      simp [lookupPart, h, ih]

/-- `pushLayers` leaves every other key's entry unchanged. -/
theorem lookupPart_pushLayers_ne (map : List (String × List Layer))
    (p q : String) (ls : List Layer) (h : q ≠ p) :
    lookupPart q (pushLayers map p ls) = lookupPart q map := by
  induction map with
  | nil => rfl
  | cons kv rest ih =>
    obtain ⟨k, v⟩ := kv
    rw [pushLayers_cons]
    by_cases hkp : k = p
    · subst hkp
      rw [if_pos rfl]
      simp [lookupPart, Ne.symm h, ih]
    · rw [if_neg hkp]
      by_cases hkq : k = q <;> simp [lookupPart, hkq, ih]

/-- The per-module partition loop only ever appends to a partition's
lowerdir list. -/
theorem lookup_innerFold_growth (m : Module) (parts : List String) :
    ∀ (map : List (String × List Layer)) (p : String) (v : List Layer),
      lookupPart p map = some v →
      ∃ w, lookupPart p
          (parts.foldl (fun mp q => pushLayers mp q (moduleContrib m q)) map) =
        some (v ++ w) := by
  induction parts with
  | nil => exact fun map p v h => ⟨[], by simpa using h⟩
  | cons q rest ih =>
    intro map p v h
    rw [List.foldl_cons]
    by_cases hq : q = p
    · subst hq
      have h1 : lookupPart q (pushLayers map q (moduleContrib m q)) =
          some (v ++ moduleContrib m q) := by
        rw [lookupPart_pushLayers_self, h]; rfl
      obtain ⟨w, hw⟩ := ih _ q _ h1
      exact ⟨moduleContrib m q ++ w, by rw [hw, List.append_assoc]⟩
    · have h1 : lookupPart p (pushLayers map q (moduleContrib m q)) = some v := by
        rw [lookupPart_pushLayers_ne _ _ _ _ (fun hpq => hq hpq.symm), h]
      exact ih _ p _ h1

/-- The whole module loop only ever appends to a partition's lowerdir
list. -/
theorem lookup_modulesFold_growth (parts : List String) (ms : List Module) :
    ∀ (map : List (String × List Layer)) (p : String) (v : List Layer),
      lookupPart p map = some v →
      ∃ w, lookupPart p
          (ms.foldl (fun mp m =>
            parts.foldl (fun mp2 q => pushLayers mp2 q (moduleContrib m q)) mp) map) =
        some (v ++ w) := by
  induction ms with
  | nil => exact fun map p v h => ⟨[], by simpa using h⟩
  | cons m rest ih =>
    intro map p v h
    rw [List.foldl_cons]
    obtain ⟨w1, h1⟩ := lookup_innerFold_growth m parts map p v h
    obtain ⟨w2, h2⟩ := ih _ p _ h1
    exact ⟨w1 ++ w2, by rw [h2, List.append_assoc]⟩

/-- Processing one module appends exactly its contribution (possibly
followed by further pushes for duplicate partition entries) to every
tracked partition's list. -/
theorem lookup_innerFold_contrib (m : Module) (parts : List String) (p : String)
    (hp : p ∈ parts) :
    ∀ (map : List (String × List Layer)) (v : List Layer),
      lookupPart p map = some v →
      ∃ w, lookupPart p
          (parts.foldl (fun mp q => pushLayers mp q (moduleContrib m q)) map) =
        some (v ++ moduleContrib m p ++ w) := by
  induction parts with
  | nil => cases hp
  | cons q rest ih =>
    intro map v h
    rw [List.foldl_cons]
    by_cases hq : q = p
    · subst hq
      have h1 : lookupPart q (pushLayers map q (moduleContrib m q)) =
          some (v ++ moduleContrib m q) := by
        rw [lookupPart_pushLayers_self, h]; rfl
      obtain ⟨w, hw⟩ := lookup_innerFold_growth m rest _ q _ h1
      exact ⟨w, hw⟩
    · have hp' : p ∈ rest := by
        rcases List.mem_cons.mp hp with h' | h'
        · exact absurd h'.symm hq
        · exact h'
      have h1 : lookupPart p (pushLayers map q (moduleContrib m q)) = some v := by
        rw [lookupPart_pushLayers_ne _ _ _ _ (fun hpq => hq hpq.symm), h]
      exact ih hp' _ _ h1

/-- Every tracked partition with an existing root starts out in the
initial map with an empty lowerdir list. -/
theorem lookupPart_initMap (env : OverlayEnv) (p : String)
    (hp : p ∈ env.partitions) (hr : p ∈ env.existingRoots) :
    lookupPart p (initPartitionMap env) = some [] := by
  unfold initPartitionMap
  revert hp
  generalize env.partitions = parts
  induction parts with
  | nil => intro hp; cases hp
  | cons q rest ih =>
    intro hp
    rw [List.filterMap_cons]
    by_cases hq : q ∈ env.existingRoots
    · rw [if_pos hq]
      by_cases hpq : q = p
      · simp [lookupPart, hpq]
      · simp only [lookupPart, if_neg hpq]
        refine ih ?_
        rcases List.mem_cons.mp hp with h' | h'
        · exact absurd h'.symm hpq
        · exact h'
    · rw [if_neg hq]
      refine ih ?_
      rcases List.mem_cons.mp hp with h' | h'
      · exact absurd (h' ▸ hr) hq
      · exact h'

/-- `pushLayers` creates no new keys. -/
theorem exists_key_pushLayers (map : List (String × List Layer)) (q : String)
    (ls : List Layer) (p : String) (l : List Layer)
    (h : (p, l) ∈ pushLayers map q ls) : ∃ l', (p, l') ∈ map := by
  unfold pushLayers at h
  obtain ⟨⟨k, v⟩, hkv, hf⟩ := List.mem_map.mp h
  by_cases hk : k = q
  · subst hk
    simp at hf
    exact ⟨v, hf.1 ▸ hkv⟩
  · simp [hk] at hf
    exact ⟨v, hf.1 ▸ hkv⟩

/-- The per-module partition loop creates no new keys. -/
theorem exists_key_innerFold (m : Module) (parts : List String) :
    ∀ (map : List (String × List Layer)) (p : String) (l : List Layer),
      (p, l) ∈ parts.foldl (fun mp q => pushLayers mp q (moduleContrib m q)) map →
      ∃ l', (p, l') ∈ map := by
  induction parts with
  | nil => exact fun map p l h => ⟨l, h⟩
  | cons q rest ih =>
    intro map p l h
    rw [List.foldl_cons] at h
    obtain ⟨l', hl'⟩ := ih _ p l h
    exact exists_key_pushLayers map q _ p l' hl'

/-- The whole module loop creates no new keys. -/
theorem exists_key_modulesFold (parts : List String) (ms : List Module) :
    ∀ (map : List (String × List Layer)) (p : String) (l : List Layer),
      (p, l) ∈ ms.foldl (fun mp m =>
        parts.foldl (fun mp2 q => pushLayers mp2 q (moduleContrib m q)) mp) map →
      ∃ l', (p, l') ∈ map := by
  induction ms with
  | nil => exact fun map p l h => ⟨l, h⟩
  | cons m rest ih =>
    intro map p l h
    rw [List.foldl_cons] at h
    obtain ⟨l', hl'⟩ := ih _ p l h
    exact exists_key_innerFold m parts _ p l' hl'

/-- Keys of the initial map all have an existing root directory. -/
theorem mem_initMap_root (env : OverlayEnv) (p : String) (l : List Layer)
    (h : (p, l) ∈ initPartitionMap env) : p ∈ env.existingRoots := by
  unfold initPartitionMap at h
  obtain ⟨q, hq, hf⟩ := List.mem_filterMap.mp h
  by_cases hqr : q ∈ env.existingRoots
  · simp [hqr] at hf
    exact hf.1 ▸ hqr
  · simp [hqr] at hf

/-! ## C4 — discovery excludes absent partitions; layer priority order -/

/-- C4: module discovery never produces a lowerdir entry for a partition
whose root mount point is absent (such partitions have no entry at all in
the collected map), and for each active module contributing both subtrees
to a tracked, existing partition, its `system/$PART` layer is placed
(immediately) before its top-level `$PART` layer in that partition's
lowerdir list. -/
theorem C4_discovery (env : OverlayEnv) :
    (∀ (p : String) (l : List Layer),
      (p, l) ∈ collectPartitionLowerdir env → p ∈ env.existingRoots) ∧
    (∀ (m : Module) (p : String), m ∈ activeModules env →
      p ∈ env.partitions → p ∈ env.existingRoots →
      p ∈ m.sysPartDirs → p ∈ m.topPartDirs →
      ∀ l, lookupPart p (collectPartitionLowerdir env) = some l →
        ∃ w₁ w₂,
          l = w₁ ++ Layer.sysPart m.name p :: Layer.topPart m.name p :: w₂) := by
  constructor
  · intro p l h
    unfold collectPartitionLowerdir at h
    obtain ⟨l', hl'⟩ :=
      exists_key_modulesFold env.partitions (activeModules env) _ p l h
    exact mem_initMap_root env p l' hl'
  · intro m p hm hp hr hs ht l hl
    obtain ⟨ms1, ms2, hms⟩ := List.append_of_mem hm
    unfold collectPartitionLowerdir at hl
    rw [hms, List.foldl_append, List.foldl_cons] at hl
    have h0 := lookupPart_initMap env p hp hr
    obtain ⟨w1, h1⟩ :=
      lookup_modulesFold_growth env.partitions ms1 _ p [] h0
    rw [List.nil_append] at h1
    obtain ⟨w2, h2⟩ := lookup_innerFold_contrib m env.partitions p hp _ w1 h1
    obtain ⟨w3, h3⟩ := lookup_modulesFold_growth env.partitions ms2 _ p _ h2
    rw [hl] at h3
    have hx := Option.some.inj h3
    have hcontrib : moduleContrib m p =
        [Layer.sysPart m.name p, Layer.topPart m.name p] := by
      simp [moduleContrib, hs, ht]
    refine ⟨w1, w2 ++ w3, ?_⟩
    rw [hx, hcontrib]
    simp [List.append_assoc]

/-- C4 witness: in the concrete discovery scenario, the only collected
partition is the existing `vendor`, whose list places the module's
`system/vendor` layer before its `vendor` layer. -/
theorem C4_witness :
    ("vendor" ∈ c4Env.existingRoots) ∧
    (∃ w₁ w₂,
      [Layer.sysPart "m1" "vendor", Layer.topPart "m1" "vendor"] =
        w₁ ++ Layer.sysPart "m1" "vendor" :: Layer.topPart "m1" "vendor" :: w₂) := by
  constructor
  · exact (C4_discovery c4Env).1 "vendor"
      [Layer.sysPart "m1" "vendor", Layer.topPart "m1" "vendor"] (by decide)
  · exact (C4_discovery c4Env).2
      ⟨"m1", true, false, false, true, ["vendor"], ["vendor"]⟩ "vendor"
      (by decide) (by decide) (by decide) (by decide) (by decide) _ (by decide)

end APatch
